import Mathlib

/-!
Verification of the reconciliation core of the grafana-agent charm
(`src/grafana_agent.py`, `src/machine_charm.py`).

The embedding models:
  * YAML documents as the inductive `Yaml` (Python dicts are association
    lists; Python `==` on parsed documents is key-order-insensitive deep
    equality, modelled by comparing key-sorted canonical forms);
  * the charm's abstract collaborators (`is_ready`, `read_file`,
    `write_file`, `restart`, the endpoint providers and the juju model
    metadata) as explicit inputs;
  * `_update_config`, `_update_status`, `update_alerts_rules`,
    `_generate_config`, `_integrations_config`, `_loki_config`,
    `_enrich_endpoints` and `_reload_config` as pure functions over those
    inputs that additionally return the observable effect trace
    (files written, restarts issued, statuses set, HTTP requests made).
-/

namespace GrafanaAgent

/-- A structured document value, as produced by `yaml.safe_load` /
consumed by `yaml.dump`.  Mappings keep insertion order, as Python
dicts do. -/
inductive Yaml where
  | nullv : Yaml
  | boolv : Bool → Yaml
  | intv : Int → Yaml
  | str : String → Yaml
  | arr : List Yaml → Yaml
  | map : List (String × Yaml) → Yaml
deriving Repr

/-- Insert one key/value pair into a key-sorted list. -/
def Yaml.insertKV (x : String × Yaml) : List (String × Yaml) → List (String × Yaml)
  | [] => [x]
  | y :: ys => if x.1 ≤ y.1 then x :: y :: ys else y :: Yaml.insertKV x ys

/-- Sort a mapping by key (insertion sort). -/
def Yaml.sortKVs (l : List (String × Yaml)) : List (String × Yaml) :=
  l.foldr Yaml.insertKV []

mutual

/-- Key-sorted canonical form of a document: Python `==` on two parsed
documents (dicts compare as unordered key/value collections) is modelled
as syntactic equality of canonical forms. -/
def Yaml.canon : Yaml → Yaml
  | .nullv => .nullv
  | .boolv b => .boolv b
  | .intv n => .intv n
  | .str s => .str s
  | .arr xs => .arr (Yaml.canonList xs)
  | .map kvs => .map (Yaml.sortKVs (Yaml.canonKVs kvs))

/-- Canonicalize every element of a sequence (sequences stay ordered,
as Python list `==` is order-sensitive). -/
def Yaml.canonList : List Yaml → List Yaml
  | [] => []
  | x :: xs => x.canon :: Yaml.canonList xs

/-- Canonicalize every value of a mapping. -/
def Yaml.canonKVs : List (String × Yaml) → List (String × Yaml)
  | [] => []
  | (k, v) :: r => (k, v.canon) :: Yaml.canonKVs r

end

mutual

/-- Syntactic (order-sensitive) boolean equality of documents. -/
def Yaml.beq : Yaml → Yaml → Bool
  | .nullv, .nullv => true
  | .boolv a, .boolv b => a == b
  | .intv a, .intv b => a == b
  | .str a, .str b => a == b
  | .arr xs, .arr ys => Yaml.beqList xs ys
  | .map a, .map b => Yaml.beqKVs a b
  | _, _ => false

/-- Pointwise boolean equality of sequences. -/
def Yaml.beqList : List Yaml → List Yaml → Bool
  | [], [] => true
  | x :: xs, y :: ys => Yaml.beq x y && Yaml.beqList xs ys
  | _, _ => false

/-- Pointwise boolean equality of mapping entries. -/
def Yaml.beqKVs : List (String × Yaml) → List (String × Yaml) → Bool
  | [], [] => true
  | (k, v) :: r, (k2, v2) :: r2 => k == k2 && Yaml.beq v v2 && Yaml.beqKVs r r2
  | _, _ => false

end

/-- Python `==` between two parsed documents: deep equality that is
insensitive to mapping key order (and, being defined on parsed values,
to serialization whitespace). -/
def pyEq (a b : Yaml) : Bool := Yaml.beq a.canon b.canon

mutual

theorem Yaml.beq_refl : ∀ a : Yaml, Yaml.beq a a = true
  | .nullv => rfl
  | .boolv b => by simp [Yaml.beq]
  | .intv n => by simp [Yaml.beq]
  | .str s => by simp [Yaml.beq]
  | .arr xs => by simpa [Yaml.beq] using Yaml.beqList_refl xs
  | .map kvs => by simpa [Yaml.beq] using Yaml.beqKVs_refl kvs

theorem Yaml.beqList_refl : ∀ xs : List Yaml, Yaml.beqList xs xs = true
  | [] => rfl
  | x :: xs => by simp [Yaml.beqList, Yaml.beq_refl x, Yaml.beqList_refl xs]

theorem Yaml.beqKVs_refl : ∀ l : List (String × Yaml), Yaml.beqKVs l l = true
  | [] => rfl
  | (k, v) :: r => by simp [Yaml.beqKVs, Yaml.beq_refl v, Yaml.beqKVs_refl r]

end

theorem pyEq_refl (a : Yaml) : pyEq a a = true :=
  Yaml.beq_refl a.canon

/-! ## Config synthesis (`_enrich_endpoints`, `_integrations_config`,
`_loki_config`, `_generate_config`) -/

/-- A remote-write / push target, as the Python code sees it: a dict. -/
abbrev Endpoint : Type := List (String × Yaml)

/-- Python dict item assignment `d[k] = v`: replace the value of the key
in place if present (keeping its position), else append the new entry at
the end (dicts have unique keys, so only the first occurrence matters). -/
def setKey : List (String × Yaml) → String → Yaml → List (String × Yaml)
  | [], k, v => [(k, v)]
  | kv :: r, k, v => if kv.1 = k then (k, v) :: r else kv :: setKey r k v

/-- Python dict-literal merge `\x7b**a, **b\x7d`: entries of `a` in order,
values overridden by `b` on key collision, then the remaining entries of
`b` in order. -/
def dictMerge (a b : List (String × Yaml)) : List (String × Yaml) :=
  a.map (fun kv =>
    match b.lookup kv.1 with
    | some v => (kv.1, v)
    | none => kv)
  ++ b.filter (fun kv => a.all (fun kv2 => kv2.1 ≠ kv.1))

/-- The inputs `_generate_config` and its helpers draw from the charm:
juju model metadata, the two endpoint providers, the config flag, the
scrape jobs and the subclass-supplied extension hooks. -/
structure CharmInputs where
  juju_model : String
  juju_model_uuid : String
  juju_application : String
  juju_unit : String
  meta_name : String
  tls_insecure_skip_verify : Yaml
  prometheus_endpoints : List Endpoint
  loki_endpoints : List Endpoint
  metrics_jobs : List Yaml
  additional_integrations : List (String × Yaml)
  additional_log_configs : List Yaml

/-- The dict assigned to every endpoint's `tls_config` key:
`\x7b"insecure_skip_verify": self.model.config.get("tls_insecure_skip_verify")\x7d`. -/
def tlsValue (c : CharmInputs) : Yaml :=
  .map [("insecure_skip_verify", c.tls_insecure_skip_verify)]

/-- The in-place mutation `endpoint["tls_config"] = ...` applied to one
endpoint dict by `_enrich_endpoints`. -/
def setTls (c : CharmInputs) (e : Endpoint) : Endpoint :=
  setKey e "tls_config" (tlsValue c)

/-- `_enrich_endpoints`: adds TLS information to every Prometheus and
Loki endpoint (mutating each supplied endpoint dict in place) and
returns the two lists. -/
def _enrich_endpoints (c : CharmInputs) : List Endpoint × List Endpoint :=
  (c.prometheus_endpoints.map (setTls c), c.loki_endpoints.map (setTls c))

/-- `_instance_topology` of the base class. -/
def _instance_topology (c : CharmInputs) : List (String × String) :=
  [("juju_model", c.juju_model),
   ("juju_model_uuid", c.juju_model_uuid),
   ("juju_application", c.juju_application),
   ("juju_unit", c.juju_unit)]

/-- `_instance_name`: interpolated topology values. -/
def _instance_name (c : CharmInputs) : String :=
  String.intercalate "_" ((_instance_topology c).map (fun kv => kv.2))

/-- `_integrations_config`: the integrations section, with the
self-monitoring relabelling chain and the subclass extension
integrations merged in (extension wins on key collision). -/
def _integrations_config (c : CharmInputs) : Yaml :=
  let job_name :=
    "juju_" ++ c.juju_model ++ "_" ++ c.juju_model_uuid ++ "_"
      ++ c.juju_application ++ "_self-monitoring"
  let prometheus_endpoints := (_enrich_endpoints c).1
  .map (dictMerge
    [("agent", .map
      [("enabled", .boolv true),
       ("relabel_configs", .arr
         [.map [("target_label", .str "job"),
                ("regex", .str "(.*)"),
                ("replacement", .str job_name)],
          .map [("target_label", .str "instance"),
                ("regex", .str "(.*)"),
                ("replacement", .str (_instance_name c))],
          .map [("source_labels", .arr [.str "__address__"]),
                ("target_label", .str "juju_charm"),
                ("replacement", .str c.meta_name)],
          .map [("source_labels", .arr [.str "__address__"]),
                ("target_label", .str "juju_model"),
                ("replacement", .str c.juju_model)],
          .map [("source_labels", .arr [.str "__address__"]),
                ("target_label", .str "juju_model_uuid"),
                ("replacement", .str c.juju_model_uuid)],
          .map [("source_labels", .arr [.str "__address__"]),
                ("target_label", .str "juju_application"),
                ("replacement", .str c.juju_application)],
          .map [("source_labels", .arr [.str "__address__"]),
                ("target_label", .str "juju_unit"),
                ("replacement", .str c.juju_unit)]])]),
     ("prometheus_remote_write", .arr (prometheus_endpoints.map Yaml.map))]
    c.additional_integrations)

/-- `_promtail_positions`, `_http_listen_port`, `_grpc_listen_port`:
class constants. -/
def _promtail_positions : String := "/run/promtail-positions.yaml"

/-- HTTP port of the embedded log receiver. -/
def _http_listen_port : Int := 3500

/-- gRPC port of the embedded log receiver. -/
def _grpc_listen_port : Int := 3600

/-- `_loki_config`: the logs section.  The guard checks the raw
provider list (`self._loki_consumer.loki_endpoints` truthiness); the
embedded clients are the enriched endpoints.  An empty configs list
yields an empty dict, not an empty list. -/
def _loki_config (c : CharmInputs) : Yaml :=
  let loki_endpoints := (_enrich_endpoints c).2
  let configs :=
    (if c.loki_endpoints.isEmpty then [] else
      [Yaml.map
        [("name", .str "push_api_server"),
         ("clients", .arr (loki_endpoints.map Yaml.map)),
         ("positions", .map [("filename", .str _promtail_positions)]),
         ("scrape_configs", .arr
           [.map [("job_name", .str "loki"),
                  ("loki_push_api", .map
                    [("server", .map
                      [("http_listen_port", .intv _http_listen_port),
                       ("grpc_listen_port", .intv _grpc_listen_port)])])]])]])
    ++ c.additional_log_configs
  if configs.isEmpty then .map [] else .map [("configs", .arr configs)]

/-- `CONFIG_PATH` module constant. -/
def CONFIG_PATH : String := "/etc/grafana-agent.yaml"

/-- `_generate_config`: the full desired configuration document. -/
def _generate_config (c : CharmInputs) : Yaml :=
  let prometheus_endpoints := (_enrich_endpoints c).1
  .map
    [("server", .map [("log_level", .str "info")]),
     ("integrations", _integrations_config c),
     ("metrics", .map
       [("wal_directory", .str "/tmp/agent/data"),
        ("configs", .arr
          [.map [("name", .str "agent_scraper"),
                 ("scrape_configs", .arr c.metrics_jobs),
                 ("remote_write", .arr (prometheus_endpoints.map Yaml.map))]])]),
     ("logs", _loki_config c)]

/-! ## Unit statuses (`ops.model`) -/

/-- A unit status as set by the charm: `ActiveStatus()`,
`WaitingStatus(msg)`, `BlockedStatus(msg)`, `MaintenanceStatus(msg)`. -/
inductive Status where
  | Active : Status
  | Waiting : String → Status
  | Blocked : String → Status
  | Maintenance : String → Status
deriving DecidableEq, Repr

/-! ## The reconciliation pass (`_update_config`) -/

/-- The state of the persisted config file at `CONFIG_PATH`, as observed
through `read_file` followed by `yaml.safe_load`:
  * `absent`: `read_file` raises `FileNotFoundError` (machine variant);
  * `pathErr`: `read_file` raises `ops.pebble.PathError`;
  * `unparsable`: the file reads but `yaml.safe_load` raises a parse
    error (`yaml.YAMLError`, which is neither of the two caught classes);
  * `doc v`: the file reads and parses to the document `v`. -/
inductive FileState where
  | absent : FileState
  | pathErr : FileState
  | unparsable : FileState
  | doc : Yaml → FileState

/-- Outcome of the abstract `self.restart()` collaborator when invoked:
it may return, raise `GrafanaAgentReloadError(msg)` (whose `str` is
`msg`), or raise `ops.pebble.APIError` (whose `str` is `msg`). -/
inductive RestartOutcome where
  | ok : RestartOutcome
  | reloadErr : String → RestartOutcome
  | apiErr : String → RestartOutcome
deriving DecidableEq, Repr

/-- Everything one `_update_config` run reads from its environment. -/
structure UpdateEnv where
  is_ready : Bool
  inputs : CharmInputs
  file : FileState
  restart_outcome : RestartOutcome

/-- The observable effect of one `_update_config` run: call counts for
`_generate_config`, `read_file`, `write_file` and `restart`, the last
unit status assigned (if any), the resulting file state, and whether an
exception escaped the method uncaught. -/
structure Trace where
  synths : Nat
  reads : Nat
  writes : Nat
  restarts : Nat
  status : Option Status
  file : FileState
  uncaught : Option String

/-- `_update_config`.  Writing serializes with `yaml.dump`, so a
successful write leaves a file that parses back to the written document:
the post-write file state is `doc config`.  The only exception classes
caught around the read are `FileNotFoundError` and `PathError`; a YAML
parse error escapes uncaught.  The `try` around write/restart catches
exactly `GrafanaAgentReloadError` and `APIError`. -/
def _update_config (env : UpdateEnv) : Trace :=
  if !env.is_ready then
    { synths := 0, reads := 0, writes := 0, restarts := 0,
      status := some (.Waiting "waiting for agent to start"),
      file := env.file, uncaught := none }
  else
    let config := _generate_config env.inputs
    match env.file with
    | .unparsable =>
      { synths := 1, reads := 1, writes := 0, restarts := 0,
        status := none, file := env.file, uncaught := some "yaml.YAMLError" }
    | f =>
      let old_config : Option Yaml :=
        match f with
        | .doc v => some v
        | _ => none
      let same : Bool :=
        match old_config with
        | some v => pyEq config v
        | none => false
      if same then
        { synths := 1, reads := 1, writes := 0, restarts := 0,
          status := some .Active, file := env.file, uncaught := none }
      else
        match env.restart_outcome with
        | .ok =>
          { synths := 1, reads := 1, writes := 1, restarts := 1,
            status := some .Active, file := .doc config, uncaught := none }
        | .reloadErr m =>
          { synths := 1, reads := 1, writes := 1, restarts := 1,
            status := some (.Blocked m), file := .doc config, uncaught := none }
        | .apiErr m =>
          { synths := 1, reads := 1, writes := 1, restarts := 1,
            status := some (.Waiting m), file := .doc config, uncaught := none }

/-- Run `_update_config` twice with unchanged inputs: the second pass
starts from the file state the first pass left behind. -/
def updateConfigTwice (env : UpdateEnv) : Trace × Trace :=
  let t1 := _update_config env
  (t1, _update_config { env with file := t1.file })

/-! ## `_update_status` -/

/-- What `_update_status` reads: the number of `metrics-endpoint`
relations (`model.relations.get` yields none or a list), the number of
`send-remote-write` relations, and `is_ready`. -/
structure StatusEnv where
  metrics_endpoint_relations : Nat
  remote_write_relations : Nat
  is_ready : Bool
deriving DecidableEq, Repr

/-- `_update_status`: the sequence of unit-status assignments the method
performs, in order.  The unit ends up with the last one. -/
def _update_status (env : StatusEnv) : List Status :=
  (if env.metrics_endpoint_relations ≠ 0 then
    (if env.remote_write_relations = 0 then
      [Status.Waiting "no related Prometheus remote-write"]
    else [])
  else [])
  ++ (if !env.is_ready then
        [Status.Waiting "waiting for the agent to start"]
      else [])
  ++ [Status.Active]

/-! ## Rule/dashboard sync (`update_alerts_rules`) -/

mutual

/-- Model of `yaml.dump` on a document (flow-style serialization; the
claims only compare serialized content with serialized content, so any
fixed serialization is adequate). -/
def yamlDump : Yaml → String
  | .nullv => "null"
  | .boolv true => "true"
  | .boolv false => "false"
  | .intv n => toString n
  | .str s => "\"" ++ s ++ "\""
  | .arr xs => "[" ++ yamlDumpList xs ++ "]"
  | .map kvs => "\x7b" ++ yamlDumpKVs kvs ++ "\x7d"

/-- Serialize sequence elements, comma-separated. -/
def yamlDumpList : List Yaml → String
  | [] => ""
  | [x] => yamlDump x
  | x :: xs => yamlDump x ++ ", " ++ yamlDumpList xs

/-- Serialize mapping entries, comma-separated. -/
def yamlDumpKVs : List (String × Yaml) → String
  | [] => ""
  | [(k, v)] => k ++ ": " ++ yamlDump v
  | (k, v) :: r => k ++ ": " ++ yamlDump v ++ ", " ++ yamlDumpKVs r

end

/-- A directory's contents: relative path to file content. -/
def FS : Type := String → Option String

/-- The empty directory. -/
def emptyFS : FS := fun _ => none

/-- `pathlib.Path(...).write_text`: whole-file overwrite. -/
def fsWrite (fs : FS) (p c : String) : FS :=
  fun q => if q = p then some c else fs q

/-- `shutil.copytree(src, dest)` onto a directory with contents `dest`
(called right after `rmtree`, so `dest` is empty): every path of `src`
appears with its `src` content. -/
def copytree (src dest : FS) : FS :=
  fun q =>
    match src q with
    | some c => some c
    | none => dest q

/-- `"juju_\x7b\x7d.rules".format(topology_identifier)`: the file name
written for one rule group. -/
def rulePath (id : String) : String := "juju_" ++ id ++ ".rules"

/-- `update_alerts_rules(alerts_func, reload_func, mapping)`: the rules
are the dict the callable chain bottoms out in (modelled directly as the
entry list `rules`); the method removes `mapping.dest`, copies
`mapping.src` over, writes one `juju_<identifier>.rules` file per rule
entry, and finally calls `reload_func()` once.  Returns the resulting
dest-directory contents and the number of `reload_func` invocations. -/
def update_alerts_rules (dest0 : FS) (src : FS) (rules : List (String × Yaml)) :
    FS × Nat :=
  let destRemoved : FS := emptyFS
  let destCopied : FS := copytree src destRemoved
  let destFinal : FS :=
    rules.foldl
      (fun d r => fsWrite d (rulePath r.1) (yamlDump r.2))
      destCopied
  (destFinal, 1)

/-! ## Reload client (`_reload_config`) -/

/-- The retry set built at line 495: `list(range(400, 452)) +
list(range(500, 513))`. -/
def statusRetryable (s : Nat) : Bool :=
  decide ((400 ≤ s ∧ s ≤ 451) ∨ (500 ≤ s ∧ s ≤ 512))

/-- urllib3 `Retry.DEFAULT_ALLOWED_METHODS` (the code never overrides
`allowed_methods`/`method_whitelist` on the `Retry` it builds): only
these methods are eligible for `status_forcelist` retries.  `POST` is
not among them. -/
def allowedMethodsDefault : List String :=
  ["HEAD", "GET", "PUT", "DELETE", "OPTIONS", "TRACE"]

/-- urllib3 `Retry._is_method_retryable`: whether status-based retries
apply to this HTTP method. -/
def methodRetryable (method : String) : Bool :=
  allowedMethodsDefault.contains method

/-- urllib3 `Retry.is_retry` for a received response: the method
allowlist is consulted before the status forcelist, so a response to a
non-retryable method is returned as-is whatever its status. -/
def isRetry (method : String) (s : Nat) : Bool :=
  methodRetryable method && statusRetryable s

/-- One `Session` request through an `HTTPAdapter(max_retries=
Retry(total=retries, status_forcelist=errors))` transport, against an
endpoint that answers HTTP responses: `respond i` is the status of the
answer to the i-th request.  If `Retry.is_retry` holds for the
method/status, a retry is consumed (the initial request is not counted
against `retries`) and with none left the adapter raises, which
`requests` surfaces as a `RetryError`; otherwise the response is
returned immediately — `requests` never raises on an HTTP status
alone.  For `POST`, `is_retry` is false for every status, so the first
response is always returned. -/
def sessionSend (method : String) (respond : Nat → Nat) :
    Nat → Nat → Nat × Except String Nat
  | retries, i =>
    let s := respond i
    if isRetry method s then
      match retries with
      | 0 =>
        (1, Except.error
          ("Max retries exceeded with url: /-/reload: too many "
            ++ toString s ++ " error responses"))
      | r + 1 =>
        let rest := sessionSend method respond r (i + 1)
        (rest.1 + 1, rest.2)
    else (1, Except.ok s)

/-- `_reload_config(attempts)`: issues `s.post(url)` through the mounted
retrying adapter; the response object is discarded, and any exception
raised during the call is wrapped into
`GrafanaAgentReloadError("could not reload configuration: " + str(e))`.
Returns the number of HTTP POST requests issued and either normal
return or the raised `GrafanaAgentReloadError`'s message. -/
def _reload_config (respond : Nat → Nat) (attempts : Nat) : Nat × Except String Unit :=
  let result := sessionSend "POST" respond attempts 0
  (result.1,
   match result.2 with
   | .ok _ => .ok ()
   | .error e => .error ("could not reload configuration: " ++ e))

/-! ## Shared concrete example inputs -/

/-- A small concrete set of charm inputs used by witnesses and
counterexamples. -/
def egInputs : CharmInputs :=
  { juju_model := "mdl", juju_model_uuid := "uuid", juju_application := "app",
    juju_unit := "app/0", meta_name := "grafana-agent",
    tls_insecure_skip_verify := .boolv false,
    prometheus_endpoints := [], loki_endpoints := [],
    metrics_jobs := [], additional_integrations := [], additional_log_configs := [] }

/-! ## Theorems -/

/-- C10: for every readiness value and relation state, `_update_status`
ends by assigning `ActiveStatus`: the conditional `WaitingStatus`
assignments are always overwritten by the unconditional final
assignment, so the method can never leave the unit waiting. -/
theorem update_status_always_active (env : StatusEnv) :
    (_update_status env).getLast? = some Status.Active := by
  unfold _update_status
  rw [List.getLast?_append_cons]
  rfl

/-- C5: when `is_ready` is false, `_update_config` performs no config
synthesis, no read, no write and no restart, and leaves the unit
waiting for the agent to start. -/
theorem update_config_not_ready_noop (env : UpdateEnv) (h : env.is_ready = false) :
    _update_config env =
      { synths := 0, reads := 0, writes := 0, restarts := 0,
        status := some (.Waiting "waiting for agent to start"),
        file := env.file, uncaught := none } := by
  simp [_update_config, h]

/-- Witness for C5 at a concrete environment. -/
theorem update_config_not_ready_noop_witness :
    _update_config ⟨false, egInputs, .absent, .ok⟩ =
      { synths := 0, reads := 0, writes := 0, restarts := 0,
        status := some (.Waiting "waiting for agent to start"),
        file := .absent, uncaught := none } :=
  update_config_not_ready_noop ⟨false, egInputs, .absent, .ok⟩ rfl

/-- C4 counterexample: `update_alerts_rules` does invoke the reload
trigger itself — already with no rule groups at all, one
`reload_func()` call is made, contradicting the claim that no reload
path is invoked by this component. -/
theorem update_alerts_rules_reload_cx :
    (update_alerts_rules emptyFS emptyFS []).2 ≠ 0 := by
  decide

/-- C4 amended: `update_alerts_rules` performs the directory
replacement and the rule-file writes, and then itself calls
`reload_func` exactly once, for every mapping and rule set. -/
theorem update_alerts_rules_reloads_once (dest0 src : FS) (rules : List (String × Yaml)) :
    (update_alerts_rules dest0 src rules).2 = 1 := rfl

/-- A `POST` is answered by returning the first response, whatever its
status and whatever the remaining retry budget: `is_retry` consults the
method allowlist, which excludes `POST`, before the status forcelist. -/
theorem sessionSend_post (respond : Nat → Nat) (n i : Nat) :
    sessionSend "POST" respond n i = (1, Except.ok (respond i)) := by
  have hm : isRetry "POST" (respond i) = false := by
    simp [isRetry, methodRetryable, allowedMethodsDefault]
  cases n <;> simp [sessionSend, hm]

/-- C2 counterexample: with `attempts = 3` against an endpoint that
always answers 503, `_reload_config` issues exactly 1 HTTP POST — not
3 — and returns without raising: urllib3's `Retry` applies
`status_forcelist` only to its default allowed methods, which exclude
`POST`, and `requests` does not raise on a non-2xx status. -/
theorem reload_config_attempt_count_cx :
    (_reload_config (fun _ => 503) 3).1 = 1 ∧ ((1 : Nat) ≠ 3) ∧
    (_reload_config (fun _ => 503) 3).2 = Except.ok () := by
  refine ⟨rfl, by decide, rfl⟩

/-- C2 amended: for every attempts value `n` and every endpoint that
answers HTTP responses (any statuses, including ones in the built
forcelist), `_reload_config(attempts=n)` issues exactly one POST
request and returns normally without raising
`GrafanaAgentReloadError`: the session returns the first response —
`POST` is not in `Retry`'s default allowed methods, so the status
forcelist never triggers a retry, and `requests` raises on no HTTP
status.  In particular, against 503, 503, 200 it returns already after
the first 503, not on a third attempt. -/
theorem reload_config_single_post (respond : Nat → Nat) (n : Nat) :
    _reload_config respond n = (1, Except.ok ()) ∧
    sessionSend "POST" respond n 0 = (1, Except.ok (respond 0)) ∧
    methodRetryable "POST" = false := by
  refine ⟨?_, sessionSend_post respond n 0, by decide⟩
  simp [_reload_config, sessionSend_post respond n 0]

/-- C1 counterexample: with a persisted file whose contents are
unparsable, `_update_config` does not treat the config as absent — the
parse error escapes the handler uncaught (only `FileNotFoundError` and
`PathError` are caught), no write and no restart happen, and no status
is set. -/
theorem update_config_unparsable_raises_cx :
    (_update_config ⟨true, egInputs, .unparsable, .ok⟩).uncaught = some "yaml.YAMLError" ∧
    (_update_config ⟨true, egInputs, .unparsable, .ok⟩).writes = 0 ∧
    (_update_config ⟨true, egInputs, .unparsable, .ok⟩).restarts = 0 ∧
    (_update_config ⟨true, egInputs, .unparsable, .ok⟩).status = none :=
  ⟨rfl, rfl, rfl, rfl⟩

/-- C1 amended: when the persisted config file is missing (the read
raises `FileNotFoundError` or `PathError`), `_update_config` treats the
persisted config as absent, surfaces no error, and proceeds to write
the desired config and trigger restart exactly as on a fresh install.
An unparsable file is not covered: its parse error propagates. -/
theorem update_config_missing_file_fresh (env : UpdateEnv)
    (hready : env.is_ready = true)
    (hfile : env.file = .absent ∨ env.file = .pathErr) :
    (_update_config env).uncaught = none ∧
    (_update_config env).writes = 1 ∧
    (_update_config env).restarts = 1 ∧
    (_update_config env).file = .doc (_generate_config env.inputs) ∧
    _update_config env = _update_config { env with file := FileState.absent } := by
  rcases hfile with h | h <;>
    cases hro : env.restart_outcome <;>
      simp [_update_config, hready, h, hro]

/-- Witness for C1 at a concrete environment with a `PathError` read. -/
theorem update_config_missing_file_witness :
    (_update_config ⟨true, egInputs, .pathErr, .ok⟩).uncaught = none ∧
    (_update_config ⟨true, egInputs, .pathErr, .ok⟩).writes = 1 ∧
    (_update_config ⟨true, egInputs, .pathErr, .ok⟩).restarts = 1 ∧
    (_update_config ⟨true, egInputs, .pathErr, .ok⟩).file =
      .doc (_generate_config egInputs) ∧
    _update_config ⟨true, egInputs, .pathErr, .ok⟩ =
      _update_config ⟨true, egInputs, .absent, .ok⟩ :=
  update_config_missing_file_fresh ⟨true, egInputs, .pathErr, .ok⟩ rfl (Or.inr rfl)

/-- C7: when the desired config differs from the persisted one, the
write and the restart both happen, and the resulting status carries the
raised error's message verbatim: `GrafanaAgentReloadError` yields
`BlockedStatus(str(e))`, `APIError` yields `WaitingStatus(str(e))`, and
success yields `ActiveStatus`. -/
theorem update_config_restart_outcome_status (env : UpdateEnv)
    (hready : env.is_ready = true)
    (hparse : env.file ≠ .unparsable)
    (hchanged : ∀ v, env.file = .doc v → pyEq (_generate_config env.inputs) v = false) :
    (_update_config env).writes = 1 ∧
    (_update_config env).restarts = 1 ∧
    (_update_config env).status =
      some (match env.restart_outcome with
        | .ok => Status.Active
        | .reloadErr m => Status.Blocked m
        | .apiErr m => Status.Waiting m) := by
  cases hfv : env.file with
  | unparsable => exact absurd hfv hparse
  | absent => cases hro : env.restart_outcome <;> simp [_update_config, hready, hfv, hro]
  | pathErr => cases hro : env.restart_outcome <;> simp [_update_config, hready, hfv, hro]
  | doc v =>
    have hne := hchanged v hfv
    cases hro : env.restart_outcome <;>
      simp [_update_config, hready, hfv, hne, hro]

/-- Witness for C7: a failing restart with `GrafanaAgentReloadError`
leaves the unit blocked with the error's message. -/
theorem update_config_restart_outcome_witness :
    (_update_config ⟨true, egInputs, .absent, .reloadErr "boom"⟩).writes = 1 ∧
    (_update_config ⟨true, egInputs, .absent, .reloadErr "boom"⟩).restarts = 1 ∧
    (_update_config ⟨true, egInputs, .absent, .reloadErr "boom"⟩).status =
      some (Status.Blocked "boom") :=
  update_config_restart_outcome_status ⟨true, egInputs, .absent, .reloadErr "boom"⟩ rfl
    (fun h => FileState.noConfusion h) (fun _ h => FileState.noConfusion h)

/-- C3 counterexample: the claim quantifies over every input state and
asserts both passes end Active, but with the readiness precondition
unmet both passes end `WaitingStatus("waiting for agent to start")`. -/
theorem update_config_idempotence_cx :
    (updateConfigTwice ⟨false, egInputs, .absent, .ok⟩).2.status =
      some (Status.Waiting "waiting for agent to start") ∧
    some (Status.Waiting "waiting for agent to start") ≠ some Status.Active := by
  exact ⟨rfl, by decide⟩

/-- C3 amended: for every input state, a second `_update_config` pass
with unchanged inputs performs no write and no restart (the freshly
synthesized config compares structurally equal — `pyEq`, insensitive to
key order and serialization whitespace — to the config deserialized
from disk); and provided the charm is ready, the persisted file is not
unparsable and the restart succeeds, both passes end Active. -/
theorem update_config_second_pass_noop (env : UpdateEnv) :
    ((updateConfigTwice env).2.writes = 0 ∧ (updateConfigTwice env).2.restarts = 0) ∧
    (env.is_ready = true → env.file ≠ .unparsable → env.restart_outcome = .ok →
      (updateConfigTwice env).1.status = some Status.Active ∧
      (updateConfigTwice env).2.status = some Status.Active) := by
  by_cases hready : env.is_ready = true
  · cases hfv : env.file with
    | unparsable =>
      constructor
      · simp [updateConfigTwice, _update_config, hready, hfv]
      · intro _ hparse _
        exact absurd rfl hparse
    | absent =>
      cases hro : env.restart_outcome <;>
        constructor <;>
          simp [updateConfigTwice, _update_config, hready, hfv, hro, pyEq_refl]
    | pathErr =>
      cases hro : env.restart_outcome <;>
        constructor <;>
          simp [updateConfigTwice, _update_config, hready, hfv, hro, pyEq_refl]
    | doc v =>
      by_cases hsame : pyEq (_generate_config env.inputs) v = true
      · constructor <;> simp [updateConfigTwice, _update_config, hready, hfv, hsame]
      · have hsame2 : pyEq (_generate_config env.inputs) v = false := by
          simpa using hsame
        cases hro : env.restart_outcome <;>
          constructor <;>
            simp [updateConfigTwice, _update_config, hready, hfv, hsame2, hro, pyEq_refl]
  · have hready2 : env.is_ready = false := by simpa using hready
    constructor
    · simp [updateConfigTwice, _update_config, hready2]
    · intro h
      exact absurd h (by simp [hready2])

/-- Witness for C3 at a concrete ready environment on a fresh install. -/
theorem update_config_second_pass_witness :
    ((updateConfigTwice ⟨true, egInputs, .absent, .ok⟩).2.writes = 0 ∧
      (updateConfigTwice ⟨true, egInputs, .absent, .ok⟩).2.restarts = 0) ∧
    ((updateConfigTwice ⟨true, egInputs, .absent, .ok⟩).1.status = some Status.Active ∧
      (updateConfigTwice ⟨true, egInputs, .absent, .ok⟩).2.status = some Status.Active) :=
  ⟨(update_config_second_pass_noop ⟨true, egInputs, .absent, .ok⟩).1,
   (update_config_second_pass_noop ⟨true, egInputs, .absent, .ok⟩).2 rfl
     (fun h => FileState.noConfusion h) rfl⟩

/-- Distinct identifiers yield distinct rule-file names. -/
theorem rulePath_injective (a b : String) (h : rulePath a = rulePath b) : a = b := by
  have h2 := congrArg String.data h
  simp [rulePath, String.data_append] at h2
  exact String.ext h2

/-- A path written by none of the rule-file writes keeps its prior
content. -/
theorem syncWrites_notmem :
    ∀ (rules : List (String × Yaml)) (init : FS) (p : String),
      (∀ r ∈ rules, p ≠ rulePath r.1) →
      (rules.foldl (fun d r => fsWrite d (rulePath r.1) (yamlDump r.2)) init) p = init p
  | [], _, _, _ => rfl
  | r :: rest, init, p, hp => by
    rw [List.foldl_cons,
      syncWrites_notmem rest _ p (fun q hq => hp q (List.mem_cons_of_mem r hq))]
    simp [fsWrite, hp r (List.mem_cons_self r rest)]

/-- Each rule group's file ends up holding that group's serialized
content (identifiers are dict keys, hence distinct). -/
theorem syncWrites_mem :
    ∀ (rules : List (String × Yaml)) (init : FS) (id : String) (content : Yaml),
      (rules.map Prod.fst).Nodup →
      (id, content) ∈ rules →
      (rules.foldl (fun d r => fsWrite d (rulePath r.1) (yamlDump r.2)) init) (rulePath id)
        = some (yamlDump content)
  | [], _, _, _, _, hmem => absurd hmem (List.not_mem_nil _)
  | r :: rest, init, id, content, hnd, hmem => by
    have hni : r.1 ∉ rest.map Prod.fst := (List.nodup_cons.mp (by simpa using hnd)).1
    have hnd2 : (rest.map Prod.fst).Nodup := (List.nodup_cons.mp (by simpa using hnd)).2
    rw [List.foldl_cons]
    rcases List.mem_cons.mp hmem with heq | hmem2
    · cases heq
      rw [syncWrites_notmem rest _ (rulePath id) ?hne]
      · simp [fsWrite]
      case hne =>
        intro q hq hcontra
        have hq1 : q.1 ∈ rest.map Prod.fst := List.mem_map_of_mem Prod.fst hq
        rw [← rulePath_injective id q.1 hcontra] at hq1
        exact hni hq1
    · exact syncWrites_mem rest _ id content hnd2 hmem2

/-- C6: after `update_alerts_rules`, the destination directory holds
exactly the recursive copy of the source template plus one
`juju_<identifier>.rules` file per supplied group carrying that group's
serialized content; the result is independent of the directory's prior
contents (no file from a previous sync survives), and with no groups
the directory is exactly the template copy. -/
theorem update_alerts_rules_dest_contents (dest0 dest1 src : FS)
    (rules : List (String × Yaml)) (hnodup : (rules.map Prod.fst).Nodup) :
    (∀ id content, (id, content) ∈ rules →
      (update_alerts_rules dest0 src rules).1 (rulePath id) = some (yamlDump content)) ∧
    (∀ p, (∀ r ∈ rules, p ≠ rulePath r.1) →
      (update_alerts_rules dest0 src rules).1 p = src p) ∧
    (update_alerts_rules dest0 src rules).1 = (update_alerts_rules dest1 src rules).1 ∧
    (∀ p, (update_alerts_rules dest0 src []).1 p = src p) := by
  have hcopy : ∀ p, copytree src emptyFS p = src p := by
    intro p
    cases hsp : src p <;> simp [copytree, emptyFS, hsp]
  refine ⟨?_, ?_, rfl, ?_⟩
  · intro id content hmem
    exact syncWrites_mem rules (copytree src emptyFS) id content hnodup hmem
  · intro p hp
    exact (syncWrites_notmem rules (copytree src emptyFS) p hp).trans (hcopy p)
  · intro p
    exact hcopy p

/-- A concrete source-template directory with one static file. -/
def egSrc : FS := fun p => if p = "static.txt" then some "template" else none

/-- Witness for C6 on a concrete mapping with groups A and B. -/
theorem update_alerts_rules_dest_witness :
    (([("A", Yaml.str "a"), ("B", Yaml.str "b")].map Prod.fst).Nodup) ∧
    (update_alerts_rules emptyFS egSrc [("A", Yaml.str "a"), ("B", Yaml.str "b")]).1
      (rulePath "A") = some (yamlDump (Yaml.str "a")) ∧
    (update_alerts_rules emptyFS egSrc [("A", Yaml.str "a"), ("B", Yaml.str "b")]).1
      "static.txt" = egSrc "static.txt" :=
  ⟨by decide,
   (update_alerts_rules_dest_contents emptyFS emptyFS egSrc
      [("A", Yaml.str "a"), ("B", Yaml.str "b")] (by decide)).1 "A" (Yaml.str "a")
     (List.mem_cons_self _ _),
   (update_alerts_rules_dest_contents emptyFS emptyFS egSrc
      [("A", Yaml.str "a"), ("B", Yaml.str "b")] (by decide)).2.1 "static.txt"
     (by decide)⟩

/-- Mapping access `d[k]` on a document (none when not a mapping or the
key is missing). -/
def getKey (y : Yaml) (k : String) : Option Yaml :=
  match y with
  | .map kvs => kvs.lookup k
  | _ => none

/-- The `metrics.configs[0].remote_write` list of a config document. -/
def configRemoteWrite (cfg : Yaml) : List Yaml :=
  match (getKey cfg "metrics").bind (fun m => getKey m "configs") with
  | some (.arr (c0 :: _)) =>
    match getKey c0 "remote_write" with
    | some (.arr es) => es
    | _ => []
  | _ => []

/-- The `logs.configs[0].clients` list of a config document (the
`push_api_server` block is the first logs config whenever any Loki
endpoint exists). -/
def configLokiClients (cfg : Yaml) : List Yaml :=
  match (getKey cfg "logs").bind (fun l => getKey l "configs") with
  | some (.arr (c0 :: _)) =>
    match getKey c0 "clients" with
    | some (.arr es) => es
    | _ => []
  | _ => []

/-- After the assignment `d[k] = v`, looking `k` up yields `v`. -/
theorem lookup_setKey :
    ∀ (d : List (String × Yaml)) (k : String) (v : Yaml),
      (setKey d k v).lookup k = some v
  | [], k, v => by simp [setKey]
  | kv :: r, k, v => by
    by_cases h : kv.1 = k
    · simp [setKey, h, List.lookup]
    · have hbeq : (k == kv.1) = false := by
        simp [Ne.symm h]
      simp [setKey, h, List.lookup, hbeq, lookup_setKey r k v]

/-- The metrics remote-write list of the generated config is exactly
the enriched Prometheus endpoint list. -/
theorem configRemoteWrite_generate (c : CharmInputs) :
    configRemoteWrite (_generate_config c) = ((_enrich_endpoints c).1).map Yaml.map := rfl

/-- With at least one Loki endpoint, the first logs config block's
clients are exactly the enriched Loki endpoint list. -/
theorem configLokiClients_generate (c : CharmInputs) (e0 : Endpoint) (es : List Endpoint)
    (h : c.loki_endpoints = e0 :: es) :
    configLokiClients (_generate_config c) = ((e0 :: es).map (setTls c)).map Yaml.map := by
  simp only [configLokiClients, _generate_config, _loki_config, _enrich_endpoints, h]
  rfl

/-- C8: every endpoint embedded in the synthesized config — the metrics
remote-write list and the logs clients — carries `tls_config` equal to
the single injected value, whose `insecure_skip_verify` entry is the
`tls_insecure_skip_verify` flag; all N supplied endpoints appear, so
flipping the flag flips it on all of them uniformly. -/
theorem tls_flag_propagates (c : CharmInputs) :
    getKey (tlsValue c) "insecure_skip_verify" = some c.tls_insecure_skip_verify ∧
    ((configRemoteWrite (_generate_config c)).length = c.prometheus_endpoints.length ∧
      ∀ e ∈ configRemoteWrite (_generate_config c),
        getKey e "tls_config" = some (tlsValue c)) ∧
    (∀ e0 es, c.loki_endpoints = e0 :: es →
      (configLokiClients (_generate_config c)).length = c.loki_endpoints.length ∧
      ∀ e ∈ configLokiClients (_generate_config c),
        getKey e "tls_config" = some (tlsValue c)) := by
  have hget : ∀ d : Endpoint, getKey (Yaml.map (setTls c d)) "tls_config" = some (tlsValue c) := by
    intro d
    show (setTls c d).lookup "tls_config" = some (tlsValue c)
    exact lookup_setKey d "tls_config" (tlsValue c)
  refine ⟨rfl, ⟨?_, ?_⟩, ?_⟩
  · rw [configRemoteWrite_generate]
    simp [_enrich_endpoints]
  · rw [configRemoteWrite_generate]
    intro e he
    obtain ⟨d, hd, rfl⟩ := List.mem_map.mp he
    obtain ⟨x, hx, rfl⟩ := List.mem_map.mp hd
    exact hget x
  · intro e0 es h
    rw [configLokiClients_generate c e0 es h, h]
    constructor
    · simp
    · intro e he
      obtain ⟨d, hd, rfl⟩ := List.mem_map.mp he
      obtain ⟨x, hx, rfl⟩ := List.mem_map.mp hd
      exact hget x

/-- Concrete inputs with one Prometheus and one Loki endpoint and the
TLS flag set. -/
def egTls : CharmInputs :=
  { egInputs with
    tls_insecure_skip_verify := .boolv true,
    prometheus_endpoints := [[("url", .str "http://prom/api/v1/write")]],
    loki_endpoints := [[("url", .str "http://loki/loki/api/v1/push")]] }

/-- Witness for C8 on `egTls`. -/
theorem tls_flag_propagates_witness :
    getKey (tlsValue egTls) "insecure_skip_verify" = some (Yaml.boolv true) ∧
    (configRemoteWrite (_generate_config egTls)).length = 1 ∧
    getKey (Yaml.map [("url", .str "http://prom/api/v1/write"),
        ("tls_config", tlsValue egTls)]) "tls_config" = some (tlsValue egTls) ∧
    (configLokiClients (_generate_config egTls)).length = 1 :=
  ⟨(tls_flag_propagates egTls).1,
   (tls_flag_propagates egTls).2.1.1,
   (tls_flag_propagates egTls).2.1.2
     (Yaml.map [("url", .str "http://prom/api/v1/write"), ("tls_config", tlsValue egTls)])
     (List.mem_cons_self _ _),
   ((tls_flag_propagates egTls).2.2 [("url", .str "http://loki/loki/api/v1/push")] [] rfl).1⟩

/-- The provider-visible after-effect of one `_enrich_endpoints` call:
the endpoint dicts held by the providers are the very objects the loop
assigned `tls_config` into, so after the call the providers hold the
enriched records. -/
def applyEnrich (c : CharmInputs) : CharmInputs :=
  { c with
    prometheus_endpoints := (_enrich_endpoints c).1,
    loki_endpoints := (_enrich_endpoints c).2 }

/-- Re-assigning the same value to the same key changes nothing. -/
theorem setKey_idem :
    ∀ (d : List (String × Yaml)) (k : String) (v : Yaml),
      setKey (setKey d k v) k v = setKey d k v
  | [], k, v => by simp [setKey]
  | kv :: r, k, v => by
    by_cases h : kv.1 = k
    · simp [setKey, h]
    · simp [setKey, h, setKey_idem r k v]

/-- The in-place TLS mutation is idempotent: a second
`_enrich_endpoints` call over the already-mutated provider records
returns the same lists. -/
theorem enrich_applyEnrich (c : CharmInputs) :
    _enrich_endpoints (applyEnrich c) = _enrich_endpoints c := by
  have hmap : ∀ l : List Endpoint,
      (l.map (setTls c)).map (setTls (applyEnrich c)) = l.map (setTls c) := by
    intro l
    rw [List.map_map]
    exact List.map_congr_left (fun e _ => setKey_idem e "tls_config" (tlsValue c))
  show ((c.prometheus_endpoints.map (setTls c)).map (setTls (applyEnrich c)),
        (c.loki_endpoints.map (setTls c)).map (setTls (applyEnrich c)))
      = (c.prometheus_endpoints.map (setTls c), c.loki_endpoints.map (setTls c))
  rw [hmap, hmap]

/-- C9 counterexample: synthesis does modify its inputs — running
`_enrich_endpoints` leaves the provider-supplied endpoint record (here
an endpoint dict with no `tls_config` entry) different from what the
provider supplied, refuting "the endpoint records supplied by the
metrics and logs providers are not modified by synthesis". -/
theorem enrich_endpoints_mutates_cx :
    (_enrich_endpoints { egInputs with prometheus_endpoints := [[]] }).1 ≠
      ({ egInputs with prometheus_endpoints := [[]] } : CharmInputs).prometheus_endpoints := by
  intro h
  have h2 : (1 : Nat) = 0 := congrArg (fun l => (l.headD []).length) h
  exact Nat.one_ne_zero h2

/-- C9 amended: config synthesis is deterministic and performs no I/O,
but it mutates the supplied endpoint records in place, setting each
record's `tls_config` key; the mutation is idempotent and the
synthesized document is unchanged when synthesis runs again over the
already-mutated records (so the repeated enrichment inside
`_generate_config`, `_integrations_config` and `_loki_config` is
harmless). -/
theorem generate_config_enrich_stable (c : CharmInputs) :
    _generate_config (applyEnrich c) = _generate_config c ∧
    _enrich_endpoints (applyEnrich c) = _enrich_endpoints c := by
  have he := enrich_applyEnrich c
  refine ⟨?_, he⟩
  have h2 : (applyEnrich c).loki_endpoints.isEmpty = c.loki_endpoints.isEmpty := by
    show (c.loki_endpoints.map (setTls c)).isEmpty = c.loki_endpoints.isEmpty
    cases c.loki_endpoints <;> rfl
  unfold _generate_config _integrations_config _loki_config
  rw [he, h2]
  rfl

end GrafanaAgent
